import Mathlib

/-!
Shallow embedding of the SQL risk-classification gate of this repository:
`src/security/sql_analyzer.py` (class `SQLOperationType`) and
`src/security/interceptor.py` (class `SQLInterceptor`).

Python strings are modelled as Lean `String`; the handful of `str` methods the
gate uses (`strip`, `split`, `upper`, `lower`, `in`-substring) are modelled
below over the character list, restricted to the ASCII and Latin-1 range that
the gate's fixed keyword tables and configuration names actually use.
-/

/-- Whitespace as recognised by Python `str.strip()` / `str.split()`, on the
ASCII/Latin-1 range (the wider Unicode `Zs` category is not modelled). -/
def pyIsSpace (c : Char) : Bool :=
  c = ' ' || c = '\t' || c = '\n' || c = '\r' || c = '\x0b' || c = '\x0c' ||
  c = '\x1c' || c = '\x1d' || c = '\x1e' || c = '\x1f' || c = '\x85' || c = '\xa0'

/-- Python `s.strip()`: drop whitespace from both ends. -/
def pyStrip (s : String) : String :=
  String.mk (((s.data.dropWhile fun c => pyIsSpace c).reverse.dropWhile
      fun c => pyIsSpace c).reverse)

/-- Accumulator pass for `pySplit`: `cur` holds the current token reversed. -/
def pyTokensAux : List Char → List Char → List (List Char)
  | [], cur => if cur = [] then [] else [cur.reverse]
  | c :: cs, cur =>
    if pyIsSpace c then
      (if cur = [] then pyTokensAux cs [] else cur.reverse :: pyTokensAux cs [])
    else pyTokensAux cs (c :: cur)

/-- Python `s.split()` with no argument: split on whitespace runs, no empty
tokens. -/
def pySplit (s : String) : List String :=
  (pyTokensAux s.data []).map String.mk

/-- Accumulator pass for `pySplitComma`. -/
def commaSplitAux : List Char → List Char → List (List Char)
  | [], cur => [cur.reverse]
  | c :: cs, cur =>
    if c = ',' then cur.reverse :: commaSplitAux cs []
    else commaSplitAux cs (c :: cur)

/-- Python `s.split(',')`: split on each comma, keeping empty pieces. -/
def pySplitComma (s : String) : List String :=
  (commaSplitAux s.data []).map String.mk

/-- Python `str.upper()` on one character, for ASCII and Latin-1 letters
(covers the accented level names MÉDIO and CRÍTICO used by the gate). -/
def pyUpperChar (c : Char) : Char :=
  if 'a' ≤ c ∧ c ≤ 'z' then Char.ofNat (c.toNat - 32)
  else if 0xE0 ≤ c.toNat ∧ c.toNat ≤ 0xFE ∧ c.toNat ≠ 0xF7 then Char.ofNat (c.toNat - 32)
  else c

/-- Python `s.upper()` (ASCII/Latin-1 model). -/
def pyUpper (s : String) : String :=
  String.mk (s.data.map pyUpperChar)

/-- Python `str.lower()` on one character (ASCII/Latin-1 model). -/
def pyLowerChar (c : Char) : Char :=
  if 'A' ≤ c ∧ c ≤ 'Z' then Char.ofNat (c.toNat + 32)
  else if 0xC0 ≤ c.toNat ∧ c.toNat ≤ 0xDE ∧ c.toNat ≠ 0xD7 then Char.ofNat (c.toNat + 32)
  else c

/-- Python `s.lower()` (ASCII/Latin-1 model). -/
def pyLower (s : String) : String :=
  String.mk (s.data.map pyLowerChar)

/-- Does `pat` occur as a contiguous subsequence of the character list? -/
def containsSeq (pat : List Char) : List Char → Bool
  | [] => pat.isEmpty
  | c :: rest => pat.isPrefixOf (c :: rest) || containsSeq pat rest

/-- Python's substring test `sub in text`. -/
def strContains (text sub : String) : Bool :=
  containsSeq sub.data text.data

/-- Model of Python `re.search(pattern, text, re.IGNORECASE)` restricted to
patterns without regex metacharacters whose letters are already uppercase,
scanned against uppercased text (the gate always uppercases the text first):
for such patterns `re.search` is exactly a substring search. General regex
semantics are kept abstract in the theorems, which quantify over the search
oracle. -/
def reSearchLiteral (pattern text : String) : Bool :=
  strContains text pattern

/-- Python `token.strip('\x60;')` used by table detection: drop backquote and
semicolon characters from both ends of the token. -/
def stripQuoteSemi (s : String) : String :=
  String.mk (((s.data.dropWhile fun c => c = Char.ofNat 96 ∨ c = ';').reverse.dropWhile
      fun c => c = Char.ofNat 96 ∨ c = ';').reverse)

/-- `SQLRiskLevel` (sql_analyzer.py lines 9-14): IntEnum BAIXO=1, MÉDIO=2,
ALTO=3, CRÍTICO=4 (LOW/MEDIUM/HIGH/CRITICAL). -/
inductive SQLRiskLevel where
  | Baixo
  | Medio
  | Alto
  | Critico
deriving DecidableEq

/-- The IntEnum numeric value, giving the total order BAIXO < MÉDIO < ALTO <
CRÍTICO. -/
def SQLRiskLevel.value : SQLRiskLevel → Nat
  | .Baixo => 1
  | .Medio => 2
  | .Alto => 3
  | .Critico => 4

/-- The Python enum member name (with its accents), used by
`SQLRiskLevel[name]` lookup and log/error messages. -/
def SQLRiskLevel.name : SQLRiskLevel → String
  | .Baixo => "BAIXO"
  | .Medio => "MÉDIO"
  | .Alto => "ALTO"
  | .Critico => "CRÍTICO"

/-- `TipoAmbiente` (sql_analyzer.py lines 16-37): environment kind. -/
inductive TipoAmbiente where
  | DESENVOLVIMENTO
  | PRODUCAO
deriving DecidableEq

/-- `TipoAmbiente.from_string`: `cls(value.lower())`, falling back to
DESENVOLVIMENTO on any unrecognized value. -/
def TipoAmbiente.fromString (value : String) : TipoAmbiente :=
  if pyLower value = "desenvolvimento" then .DESENVOLVIMENTO
  else if pyLower value = "producao" then .PRODUCAO
  else .DESENVOLVIMENTO

/-- Python `SQLRiskLevel[level_str]` name lookup; `none` models the KeyError
branch. -/
def riskLevelFromName (s : String) : Option SQLRiskLevel :=
  if s = "BAIXO" then some .Baixo
  else if s = "MÉDIO" then some .Medio
  else if s = "ALTO" then some .Alto
  else if s = "CRÍTICO" then some .Critico
  else none

/-- `SQLOperationType._parsear_niveis_risco` (sql_analyzer.py lines 74-93):
uppercase the configured string, split on commas, strip each entry, look the
entry up as an enum name, and drop (with a warning log, not modelled)
unrecognized entries. The Python `set` is modelled as a list used only through
membership. -/
def parsearNiveisRisco (allowedLevelsStr : String) : List SQLRiskLevel :=
  (pySplitComma (pyUpper allowedLevelsStr)).filterMap
    fun levelStr => riskLevelFromName (pyStrip levelStr)

/-- `SQLOperationType._parsear_padroes_bloqueados` (sql_analyzer.py lines
95-106): split the configured string on commas, strip each entry and keep the
non-empty ones verbatim. No regex compilation or validation happens here. -/
def parsearPadroesBloqueados (patternsStr : String) : List String :=
  ((pySplitComma patternsStr).map pyStrip).filter fun p => p ≠ ""

/-- `self.ddl_operations` (sql_analyzer.py lines 48-50). -/
def ddlOperations : List String :=
  ["CREATE", "ALTER", "DROP", "TRUNCATE", "RENAME"]

/-- `self.dml_operations` (sql_analyzer.py lines 53-55). -/
def dmlOperations : List String :=
  ["SELECT", "INSERT", "UPDATE", "DELETE", "MERGE"]

/-- `self.metadata_operations` (sql_analyzer.py lines 58-61). -/
def metadataOperations : List String :=
  ["SHOW", "DESC", "DESCRIBE", "EXPLAIN", "HELP",
   "ANALYZE", "CHECK", "CHECKSUM", "OPTIMIZE"]

/-- The environment variables read by `SQLOperationType.__init__`; `none`
models an unset variable. -/
structure EnvVars where
  tipoAmbiente : Option String
  niveisRiscoPermitidos : Option String
  padroesBloqueados : Option String

/-- The configuration state built by `SQLOperationType.__init__` (the three
keyword sets are constants and live as the global definitions above). -/
structure SQLOperationType where
  envType : TipoAmbiente
  allowedRiskLevels : List SQLRiskLevel
  blockedPatterns : List String
deriving DecidableEq

/-- `SQLOperationType.__init__` (sql_analyzer.py lines 42-72): read the
environment kind, parse allowed risk levels (default `"BAIXO,MÉDIO"`) and
blocked patterns (default empty), then, in PRODUCAO with no explicit
NIVEIS_RISCO_PERMITIDOS setting (unset or empty string, both falsy in
Python), force the allowed set to exactly BAIXO. -/
def SQLOperationType.init (env : EnvVars) : SQLOperationType :=
  let envType := TipoAmbiente.fromString (pyLower (env.tipoAmbiente.getD "desenvolvimento"))
  let allowed := parsearNiveisRisco (env.niveisRiscoPermitidos.getD "BAIXO,MÉDIO")
  let patterns := parsearPadroesBloqueados (env.padroesBloqueados.getD "")
  let allowed :=
    if envType = .PRODUCAO ∧ env.niveisRiscoPermitidos.getD "" = "" then
      [SQLRiskLevel.Baixo]
    else allowed
  { envType := envType, allowedRiskLevels := allowed, blockedPatterns := patterns }

example : parsearNiveisRisco "BAIXO,MÉDIO" = [.Baixo, .Medio] := by decide
example : parsearNiveisRisco "FOO" = [] := by decide
example : parsearNiveisRisco " baixo , FOO,crítico" = [.Baixo, .Critico] := by decide
example : parsearPadroesBloqueados "" = [] := by decide
example : parsearPadroesBloqueados " DROP , ,TRUNCATE" = ["DROP", "TRUNCATE"] := by decide
example : (SQLOperationType.init ⟨some "producao", none, none⟩).allowedRiskLevels = [.Baixo] := by decide
example : (SQLOperationType.init ⟨none, none, none⟩).envType = .DESENVOLVIMENTO := by decide
example : (SQLOperationType.init ⟨none, none, none⟩).allowedRiskLevels = [.Baixo, .Medio] := by decide

/-- `SQLOperationType._verificar_padroes_perigosos` (sql_analyzer.py lines
204-229). `re` abstracts `re.search(pattern, text, re.IGNORECASE)` returning
whether a match exists. In PRODUCAO any statement whose first token of the
uppercased text is not SELECT is flagged dangerous at once; otherwise each
blocked pattern is searched in the uppercased text. Within `analisar_risco`
the argument is already stripped and non-empty, so the `[0]` index of the
source is modelled with `headD`. -/
def verificarPadroesPerigosos (re : String → String → Bool)
    (cfg : SQLOperationType) (sqlQuery : String) : Bool :=
  let sqlUpper := pyUpper sqlQuery
  if cfg.envType = .PRODUCAO ∧ (pySplit sqlUpper).headD "" ≠ "SELECT" then true
  else cfg.blockedPatterns.any fun pattern => re pattern sqlUpper

/-- The table-indicating keywords of `_detectar_tabelas` (line 246), compared
against the raw token. -/
def tableKeywords : List String := ["FROM", "JOIN", "UPDATE", "INTO", "TABLE"]

/-- The reserved words excluded by `_detectar_tabelas` (line 250). -/
def tableStopwords : List String := ["SELECT", "WHERE", "SET"]

/-- The indexed loop of `_detectar_tabelas`: when a token is a table keyword
and a next token exists, strip backquote/semicolon from the next token and
append it unless it is a reserved word. -/
def coletarTabelas : List String → List String
  | palavra :: next :: rest =>
    if tableKeywords.contains palavra then
      let tabela := stripQuoteSemi next
      if tableStopwords.contains tabela then coletarTabelas (next :: rest)
      else tabela :: coletarTabelas (next :: rest)
    else coletarTabelas (next :: rest)
  | _ => []

/-- `SQLOperationType._detectar_tabelas` (sql_analyzer.py lines 231-253).
Python returns `list(set(tabelas))`, whose element order is unspecified;
modelled as first-occurrence deduplication, and theorems only rely on
membership or singleton results. -/
def detectarTabelas (sqlQuery : String) : List String :=
  (coletarTabelas (pySplit sqlQuery)).eraseDups

/-- The `estimated_impact` dictionary of `_estimar_impacto`. `estimatedRows =
none` models Python's `float('inf')`. -/
structure ImpactoEstimado where
  operation : String
  estimatedRows : Option Nat
  needsWhere : Bool
  hasWhere : Bool
deriving DecidableEq

/-- `SQLOperationType._estimar_impacto` (sql_analyzer.py lines 255-289);
warning logs are side effects and not modelled. -/
def estimarImpacto (cfg : SQLOperationType) (sqlQuery : String) : ImpactoEstimado :=
  let operacao := pyUpper ((pySplit sqlQuery).headD "")
  let hasWhere := strContains (pyUpper sqlQuery) "WHERE"
  let base : ImpactoEstimado :=
    { operation := operacao, estimatedRows := some 0,
      needsWhere := ["UPDATE", "DELETE"].contains operacao, hasWhere := hasWhere }
  if cfg.envType = .PRODUCAO then
    if operacao = "SELECT" then { base with estimatedRows := some 100 }
    else { base with estimatedRows := none }
  else
    if operacao = "SELECT" then { base with estimatedRows := some 100 }
    else if ["UPDATE", "DELETE"].contains operacao then
      { base with estimatedRows := if hasWhere then some 1000 else none }
    else base

/-- `SQLOperationType._calcular_nivel_risco` (sql_analyzer.py lines 155-202):
the fixed-priority risk cascade. -/
def calcularNivelRisco (cfg : SQLOperationType) (sqlQuery operation : String)
    (isDangerous : Bool) : SQLRiskLevel :=
  if isDangerous then .Critico
  else if metadataOperations.contains operation then .Baixo
  else if cfg.envType = .PRODUCAO ∧ operation ≠ "SELECT" then .Critico
  else if ddlOperations.contains operation then
    (if operation = "DROP" ∨ operation = "TRUNCATE" then .Critico else .Alto)
  else if operation = "SELECT" then .Baixo
  else if operation = "INSERT" then .Medio
  else if operation = "UPDATE" then
    (if ¬ strContains (pyUpper sqlQuery) "WHERE" then .Alto else .Medio)
  else if operation = "DELETE" then
    (if ¬ strContains (pyUpper sqlQuery) "WHERE" then .Critico else .Medio)
  else .Alto

/-- The dictionary returned by `analisar_risco`. -/
structure RiskAnalysis where
  operation : String
  operationType : String
  isDangerous : Bool
  affectedTables : List String
  estimatedImpact : ImpactoEstimado
  riskLevel : SQLRiskLevel
  isAllowed : Bool
deriving DecidableEq

/-- `SQLOperationType.analisar_risco` (sql_analyzer.py lines 108-153): strip
the input; on empty input return the fixed deny record (operation "",
operation_type "DESCONHECIDO", dangerous, risk ALTO, not allowed); otherwise
take the first token uppercased as the operation, label the operation type
`"DDL"` when the operation is a DDL keyword and `"DML"` otherwise, run the
dangerous-pattern check, table detection and impact estimate, compute the
risk level and compare it against the allowed set. -/
def analisarRisco (re : String → String → Bool) (cfg : SQLOperationType)
    (sqlQuery : String) : RiskAnalysis :=
  let sqlQuery := pyStrip sqlQuery
  if sqlQuery = "" then
    { operation := "", operationType := "DESCONHECIDO", isDangerous := true,
      affectedTables := [],
      estimatedImpact :=
        { operation := "", estimatedRows := some 0, needsWhere := false, hasWhere := false },
      riskLevel := .Alto, isAllowed := false }
  else
    let operation := pyUpper ((pySplit sqlQuery).headD "")
    let isDangerous := verificarPadroesPerigosos re cfg sqlQuery
    let riskLevel := calcularNivelRisco cfg sqlQuery operation isDangerous
    { operation := operation,
      operationType := if ddlOperations.contains operation then "DDL" else "DML",
      isDangerous := isDangerous,
      affectedTables := detectarTabelas sqlQuery,
      estimatedImpact := estimarImpacto cfg sqlQuery,
      riskLevel := riskLevel,
      isAllowed := cfg.allowedRiskLevels.contains riskLevel }

example : detectarTabelas "SELECT * FROM users WHERE id=1" = ["users"] := by decide
example : detectarTabelas "select * from users" = [] := by decide
example : detectarTabelas "UPDATE orders SET x=1" = ["orders"] := by decide
example :
    (analisarRisco reSearchLiteral (SQLOperationType.init ⟨none, none, none⟩)
      "SELECT * FROM users").riskLevel = .Baixo := by decide
example :
    (analisarRisco reSearchLiteral (SQLOperationType.init ⟨none, none, none⟩)
      "DELETE FROM users").riskLevel = .Critico := by decide
example :
    (analisarRisco reSearchLiteral (SQLOperationType.init ⟨none, none, none⟩)
      "SHOW TABLES").operationType = "DML" := by decide
example :
    (analisarRisco reSearchLiteral (SQLOperationType.init ⟨none, none, none⟩)
      "SHOW TABLES").riskLevel = .Baixo := by decide

/-- `SecurityException` (interceptor.py lines 9-11): the typed denial raised
by the interceptor, carrying its reason message. -/
structure SecurityException where
  msg : String
deriving DecidableEq

/-- Any other Python exception value, identified by its message; used to model
unexpected internal faults inside the pipeline (interceptor.py line 94
`except Exception`). -/
structure PyError where
  msg : String
deriving DecidableEq

/-- The two kinds of exception the `try` body of `check_operation` can raise:
the interceptor's own `SecurityException`s, or any other fault. -/
inductive InnerError where
  | sec (e : SecurityException)
  | py (e : PyError)
deriving DecidableEq

/-- `supported_operations` (interceptor.py lines 50-55): the literal whitelist
written in `check_operation`. Note it has 18 entries and, unlike the three
analyzer keyword sets, does not contain RENAME. -/
def supportedOperations : List String :=
  ["SELECT", "INSERT", "UPDATE", "DELETE",
   "CREATE", "ALTER", "DROP", "TRUNCATE", "MERGE",
   "SHOW", "DESC", "DESCRIBE", "EXPLAIN", "HELP",
   "ANALYZE", "CHECK", "CHECKSUM", "OPTIMIZE"]

/-- `self.max_sql_length` (interceptor.py line 19). -/
def maxSqlLength : Nat := 1000

/-- Render the allowed-level names for the denial message (approximates the
Python f-string's list formatting; no theorem depends on this text). -/
def nomesNiveis : List SQLRiskLevel → String
  | [] => ""
  | [l] => l.name
  | l :: rest => l.name ++ ", " ++ nomesNiveis rest

/-- The `try` body of `SQLInterceptor.check_operation` (interceptor.py lines
34-89), with the call `self.analyzer.analyze_risk(sql_query)` of line 61
abstracted as `step` so that the surrounding handler can be studied for any
behavior of that call (success or fault). `raise` is modelled as
`Except.error`. -/
def checkOperationBody (step : String → Except PyError RiskAnalysis)
    (cfg : SQLOperationType) (sqlQuery : String) : Except InnerError Bool :=
  if sqlQuery = "" ∨ pyStrip sqlQuery = "" then
    .error (.sec ⟨"SQL não pode estar vazia"⟩)
  else if maxSqlLength < sqlQuery.length then
    .error (.sec ⟨"Comprimento da SQL (" ++ toString sqlQuery.length ++
      ") excede o limite (" ++ toString maxSqlLength ++ ")"⟩)
  else
    let sqlParts := pySplit (pyStrip sqlQuery)
    if sqlParts = [] then .error (.sec ⟨"Formato da SQL inválido"⟩)
    else
      let operation := pyUpper (sqlParts.headD "")
      if ¬ supportedOperations.contains operation then
        .error (.sec ⟨"Operação SQL não suportada: " ++ operation⟩)
      else
        match step sqlQuery with
        | .error e => .error (.py e)
        | .ok riskAnalysis =>
          if riskAnalysis.isDangerous then
            .error (.sec ⟨"Operação perigosa detectada: " ++ riskAnalysis.operation⟩)
          else if ¬ riskAnalysis.isAllowed then
            .error (.sec ⟨"Nível de risco da operação atual (" ++
              riskAnalysis.riskLevel.name ++ ") não é permitido," ++
              "níveis de risco permitidos: " ++ nomesNiveis cfg.allowedRiskLevels⟩)
          else .ok true

/-- `SQLInterceptor.check_operation` with the classifier step abstracted: the
`except` clauses of interceptor.py lines 91-97 re-raise a `SecurityException`
unchanged and wrap any other exception's text in a new `SecurityException`
prefixed "Falha na verificação de segurança: ". The return type shows that no
raw internal fault can escape: the only outcomes are a boolean or a
`SecurityException`. -/
def checkOperationWith (step : String → Except PyError RiskAnalysis)
    (cfg : SQLOperationType) (sqlQuery : String) : Except SecurityException Bool :=
  match checkOperationBody step cfg sqlQuery with
  | .ok b => .ok b
  | .error (.sec e) => .error e
  | .error (.py e) => .error ⟨"Falha na verificação de segurança: " ++ e.msg⟩

instance {ε α : Type} [DecidableEq ε] [DecidableEq α] : DecidableEq (Except ε α) := fun a b =>
  match a, b with
  | .ok x, .ok y =>
    if h : x = y then isTrue (by rw [h]) else isFalse fun hc => h (Except.ok.inj hc)
  | .error x, .error y =>
    if h : x = y then isTrue (by rw [h]) else isFalse fun hc => h (Except.error.inj hc)
  | .ok _, .error _ => isFalse fun hc => Except.noConfusion hc
  | .error _, .ok _ => isFalse fun hc => Except.noConfusion hc

/-- The classifier step exactly as the source wires it: interceptor.py line 61
evaluates `self.analyzer.analyze_risk(sql_query)`, but class
`SQLOperationType` (sql_analyzer.py) defines only `analisar_risco` and has no
attribute `analyze_risk`, so in Python this lookup raises `AttributeError`
before any analysis runs. -/
def analyzeRiskMissing : String → Except PyError RiskAnalysis :=
  fun _ => .error ⟨"'SQLOperationType' object has no attribute 'analyze_risk'"⟩

/-- `SQLInterceptor.check_operation` as the code stands. -/
def checkOperation (cfg : SQLOperationType) (sqlQuery : String) :
    Except SecurityException Bool :=
  checkOperationWith analyzeRiskMissing cfg sqlQuery

example :
    checkOperation (SQLOperationType.init ⟨none, none, none⟩) "" =
      .error ⟨"SQL não pode estar vazia"⟩ := by decide
example :
    checkOperation (SQLOperationType.init ⟨none, none, none⟩) "GRANT ALL ON t" =
      .error ⟨"Operação SQL não suportada: GRANT"⟩ := by decide
example :
    checkOperation (SQLOperationType.init ⟨none, none, none⟩) "SELECT 1" =
      .error ⟨"Falha na verificação de segurança: " ++
        "'SQLOperationType' object has no attribute 'analyze_risk'"⟩ := by decide
example :
    checkOperationWith
      (fun q => .ok (analisarRisco reSearchLiteral (SQLOperationType.init ⟨none, none, none⟩) q))
      (SQLOperationType.init ⟨none, none, none⟩) "SELECT 1" = .ok true := by decide

example : pySplit "  SELECT *  FROM users " = ["SELECT", "*", "FROM", "users"] := by decide
example : pyStrip "  ab " = "ab" := by decide
example : pySplitComma "a, b,," = ["a", " b", "", ""] := by decide
example : pyUpper "médio, crítico" = "MÉDIO, CRÍTICO" := by decide
example : pyLower "PRODUCAO" = "producao" := by decide
example : strContains "UPDATE T WHERE X" "WHERE" = true := by decide
example : strContains "UPDATE T" "WHERE" = false := by decide
example : stripQuoteSemi "users;" = "users" := by decide

/-- The default configuration: no environment variable set (DESENVOLVIMENTO,
allowed levels BAIXO and MÉDIO, no blocked patterns). -/
def cfgPadrao : SQLOperationType := SQLOperationType.init ⟨none, none, none⟩

/-- PRODUCAO with no explicit allowed-levels override. -/
def cfgProducao : SQLOperationType := SQLOperationType.init ⟨some "producao", none, none⟩

/-- Default environment with the single blocked pattern "TABLES". -/
def cfgBloqueiaTables : SQLOperationType := SQLOperationType.init ⟨none, none, some "TABLES"⟩

/-- Default environment with the single blocked pattern "WHERE". -/
def cfgBloqueiaWhere : SQLOperationType := SQLOperationType.init ⟨none, none, some "WHERE"⟩

/-- A `checkOperationBody` success is always the value `true` (the source's
only successful exit is `return True`). -/
theorem checkOperationBody_ok_true (step : String → Except PyError RiskAnalysis)
    (cfg : SQLOperationType) (sql : String) (b : Bool)
    (h : checkOperationBody step cfg sql = .ok b) : b = true := by
  unfold checkOperationBody at h
  dsimp only at h
  repeat' split at h
  any_goals exact Except.noConfusion h
  all_goals exact (Except.ok.inj h).symm

/-- If the stripped statement tokenizes to a nonempty list, it is not the
empty string. -/
theorem pyStrip_ne_of_split (sql : String) (w : String) (ws : List String)
    (hsplit : pySplit (pyStrip sql) = w :: ws) : pyStrip sql ≠ "" := by
  intro h
  rw [h] at hsplit
  have hnil : pySplit "" = [] := by decide
  rw [hnil] at hsplit
  exact List.noConfusion hsplit

/-- C1: the claim says that in PRODUCAO with no explicit allowed-levels
override `check_operation` admits every SELECT statement and denies the rest.
The classifier would indeed classify "SELECT 1" as BAIXO and allowed under the
forced {BAIXO} set, but interceptor.py line 61 calls the nonexistent method
`analyze_risk` (the analyzer defines `analisar_risco`), so the AttributeError
is converted by the fail-closed handler into a denial: every statement that
reaches the classifier step, SELECT included, is denied. -/
theorem C1_production_select_denied_by_missing_method :
    checkOperation cfgProducao "SELECT 1" =
      .error ⟨"Falha na verificação de segurança: " ++
        "'SQLOperationType' object has no attribute 'analyze_risk'"⟩ ∧
    (analisarRisco reSearchLiteral cfgProducao "SELECT 1").riskLevel = .Baixo ∧
    (analisarRisco reSearchLiteral cfgProducao "SELECT 1").isAllowed = true ∧
    cfgProducao.allowedRiskLevels = [SQLRiskLevel.Baixo] ∧
    checkOperation cfgProducao "UPDATE users SET a=1 WHERE id=1" =
      .error ⟨"Falha na verificação de segurança: " ++
        "'SQLOperationType' object has no attribute 'analyze_risk'"⟩ := by
  decide

/-- C2: a statement (nonempty after stripping — the empty case is specified
separately, see C5) that matches any configured blocked pattern under the
regex-search oracle is reported dangerous with risk CRÍTICO, overriding every
other classification rule, and whenever CRÍTICO is not among the allowed
levels (in particular under the default policy {BAIXO, MÉDIO}) it is not
allowed. -/
theorem C2_blocked_pattern_forces_critical
    (re : String → String → Bool) (cfg : SQLOperationType) (sql : String)
    (hne : pyStrip sql ≠ "")
    (hmatch : (cfg.blockedPatterns.any fun p => re p (pyUpper (pyStrip sql))) = true) :
    (analisarRisco re cfg sql).isDangerous = true ∧
    (analisarRisco re cfg sql).riskLevel = .Critico ∧
    (SQLRiskLevel.Critico ∉ cfg.allowedRiskLevels →
      (analisarRisco re cfg sql).isAllowed = false) := by
  have hdang : verificarPadroesPerigosos re cfg (pyStrip sql) = true := by
    unfold verificarPadroesPerigosos
    dsimp only
    split
    · rfl
    · exact hmatch
  refine ⟨?_, ?_, ?_⟩ <;>
    simp only [analisarRisco, if_neg hne, hdang, calcularNivelRisco, if_pos rfl, if_true]
  intro hmem
  simpa using hmem

/-- C2 witness: the blocked pattern "TABLES" matches the metadata statement
"SHOW TABLES"; despite the metadata-operations-are-BAIXO rule it is CRÍTICO
and denied under the default allowed levels. -/
theorem C2_witness :
    (analisarRisco reSearchLiteral cfgBloqueiaTables "SHOW TABLES").isDangerous = true ∧
    (analisarRisco reSearchLiteral cfgBloqueiaTables "SHOW TABLES").riskLevel = .Critico ∧
    (analisarRisco reSearchLiteral cfgBloqueiaTables "SHOW TABLES").isAllowed = false := by
  have h := C2_blocked_pattern_forces_critical reSearchLiteral cfgBloqueiaTables
    "SHOW TABLES" (by decide) (by decide)
  exact ⟨h.1, h.2.1, h.2.2 (by decide)⟩

/-- C5: on every input that strips to the empty string, the classifier is
total and returns operation "", operation type "DESCONHECIDO" (UNKNOWN),
dangerous, risk ALTO, not allowed; and for every classifier step and every
configuration the interceptor denies such input with the empty-statement
reason. -/
theorem C5_empty_input_total_and_denied
    (re : String → String → Bool) (step : String → Except PyError RiskAnalysis)
    (cfg : SQLOperationType) (sql : String) (h : pyStrip sql = "") :
    (analisarRisco re cfg sql).operation = "" ∧
    (analisarRisco re cfg sql).operationType = "DESCONHECIDO" ∧
    (analisarRisco re cfg sql).isDangerous = true ∧
    (analisarRisco re cfg sql).riskLevel = .Alto ∧
    (analisarRisco re cfg sql).isAllowed = false ∧
    checkOperationWith step cfg sql = .error ⟨"SQL não pode estar vazia"⟩ := by
  refine ⟨?_, ?_, ?_, ?_, ?_, ?_⟩ <;>
    simp [analisarRisco, h, checkOperationWith, checkOperationBody]

/-- C5 witness at the whitespace-only input "   ". -/
theorem C5_witness :
    (analisarRisco reSearchLiteral cfgPadrao "   ").riskLevel = .Alto ∧
    checkOperationWith analyzeRiskMissing cfgPadrao "   " =
      .error ⟨"SQL não pode estar vazia"⟩ := by
  have h := C5_empty_input_total_and_denied reSearchLiteral analyzeRiskMissing
    cfgPadrao "   " (by decide)
  exact ⟨h.2.2.2.1, h.2.2.2.2.2⟩

/-- C6: fail-closed. For every classifier-step behavior, configuration and
input, the pipeline's only outcomes are the admission `.ok true` or a typed
`SecurityException` denial; and whenever the classifier step faults with an
arbitrary internal error, the pipeline still ends in a typed denial — the raw
fault never reaches the caller. -/
theorem C6_fail_closed (step : String → Except PyError RiskAnalysis)
    (cfg : SQLOperationType) (sql : String) :
    (checkOperationWith step cfg sql = .ok true ∨
      ∃ e : SecurityException, checkOperationWith step cfg sql = .error e) ∧
    (∀ e : PyError, step sql = .error e →
      ∃ s : SecurityException, checkOperationWith step cfg sql = .error s) := by
  constructor
  · rcases hbody : checkOperationBody step cfg sql with ie | b
    · unfold checkOperationWith
      rw [hbody]
      rcases ie with e | e
      · exact Or.inr ⟨e, rfl⟩
      · exact Or.inr ⟨⟨"Falha na verificação de segurança: " ++ e.msg⟩, rfl⟩
    · unfold checkOperationWith
      rw [hbody, checkOperationBody_ok_true step cfg sql b hbody]
      exact Or.inl rfl
  · intro e he
    have hnotok : ∀ b : Bool, checkOperationBody step cfg sql ≠ .ok b := by
      intro b h
      unfold checkOperationBody at h
      dsimp only at h
      rw [he] at h
      dsimp only at h
      repeat' split at h
      all_goals exact Except.noConfusion h
    rcases hbody : checkOperationBody step cfg sql with ie | b
    · unfold checkOperationWith
      rw [hbody]
      rcases ie with s | p
      · exact ⟨s, rfl⟩
      · exact ⟨⟨"Falha na verificação de segurança: " ++ p.msg⟩, rfl⟩
    · exact absurd hbody (hnotok b)

/-- C6 witness: a concrete internal fault inside the classifier step is
converted into a typed denial. -/
theorem C6_witness :
    ∃ s : SecurityException,
      checkOperationWith (fun _ => .error ⟨"falha interna"⟩) cfgPadrao "SELECT 1" =
        .error s :=
  (C6_fail_closed (fun _ => .error ⟨"falha interna"⟩) cfgPadrao "SELECT 1").2
    ⟨"falha interna"⟩ rfl

/-- C3 counterexample: the claim says the interceptor whitelist equals
DDL ∪ DML ∪ METADATA and has 17 keywords. In the code the whitelist has 18
keywords, the union has 19, and RENAME — a DDL keyword — is missing from the
whitelist, so a RENAME statement is denied as unsupported. -/
theorem C3_counterexample :
    ddlOperations.contains "RENAME" = true ∧
    supportedOperations.contains "RENAME" = false ∧
    supportedOperations.length = 18 ∧
    (ddlOperations ++ dmlOperations ++ metadataOperations).length = 19 ∧
    checkOperation cfgPadrao "RENAME TABLE a TO b" =
      .error ⟨"Operação SQL não suportada: RENAME"⟩ := by
  decide

/-- C3, amended: for every statement of length at most 1000 whose leading
keyword (first whitespace token of the stripped text, uppercased) is outside
`supported_operations`, the interceptor denies with a reason naming that
keyword, for every configuration and every classifier-step behavior; the
whitelist is contained in DDL ∪ DML ∪ METADATA, covers that union except for
RENAME, and has 18 keywords (not 17). -/
theorem C3_unsupported_keyword_denied
    (step : String → Except PyError RiskAnalysis) (cfg : SQLOperationType)
    (sql w : String) (ws : List String)
    (hsplit : pySplit (pyStrip sql) = w :: ws)
    (hlen : sql.length ≤ maxSqlLength)
    (hop : supportedOperations.contains (pyUpper w) = false) :
    checkOperationWith step cfg sql =
      .error ⟨"Operação SQL não suportada: " ++ pyUpper w⟩ ∧
    (supportedOperations.all fun k =>
      (ddlOperations ++ dmlOperations ++ metadataOperations).contains k) = true ∧
    ((ddlOperations ++ dmlOperations ++ metadataOperations).all fun k =>
      k = "RENAME" || supportedOperations.contains k) = true ∧
    supportedOperations.length = 18 := by
  have hstrip := pyStrip_ne_of_split sql w ws hsplit
  have hsql : sql ≠ "" := by
    intro h
    exact hstrip (by rw [h]; decide)
  have hcond1 : ¬(sql = "" ∨ pyStrip sql = "") := by
    rintro (h | h)
    · exact hsql h
    · exact hstrip h
  have hcond2 : ¬(maxSqlLength < sql.length) := Nat.not_lt.mpr hlen
  have hbody : checkOperationBody step cfg sql =
      .error (.sec ⟨"Operação SQL não suportada: " ++ pyUpper w⟩) := by
    unfold checkOperationBody
    dsimp only
    rw [if_neg hcond1, if_neg hcond2, hsplit]
    rw [if_neg (List.cons_ne_nil w ws)]
    simp only [List.headD_cons]
    rw [if_pos (by simpa using hop)]
  refine ⟨?_, by decide, by decide, by decide⟩
  unfold checkOperationWith
  rw [hbody]

/-- C3 witness at the unsupported keyword GRANT. -/
theorem C3_witness :
    checkOperationWith analyzeRiskMissing cfgPadrao "GRANT ALL ON t" =
      .error ⟨"Operação SQL não suportada: " ++ pyUpper "GRANT"⟩ :=
  (C3_unsupported_keyword_denied analyzeRiskMissing cfgPadrao "GRANT ALL ON t"
    "GRANT" ["ALL", "ON", "t"] (by decide) (by decide) (by decide)).1

/-- C4 counterexample: the claim says metadata statements report operation
class METADATA; the code labels `operation_type` as DDL or DML only, so SHOW
and DESCRIBE report "DML". -/
theorem C4_counterexample :
    metadataOperations.contains "SHOW" = true ∧
    (analisarRisco reSearchLiteral cfgPadrao "SHOW TABLES").operationType = "DML" ∧
    (analisarRisco reSearchLiteral cfgPadrao "DESCRIBE users").operationType = "DML" ∧
    "DML" ≠ "METADATA" := by
  decide

/-- C4, amended: for every nonempty statement the reported operation type is
"DDL" exactly when the leading keyword is one of the five DDL keywords, and
"DML" otherwise (metadata keywords included); the empty-input case alone
reports "DESCONHECIDO". -/
theorem C4_operation_type_ddl_or_dml
    (re : String → String → Bool) (cfg : SQLOperationType)
    (sql w : String) (ws : List String)
    (hsplit : pySplit (pyStrip sql) = w :: ws) :
    (analisarRisco re cfg sql).operationType =
      (if ddlOperations.contains (pyUpper w) then "DDL" else "DML") ∧
    (∀ sql2 : String, pyStrip sql2 = "" →
      (analisarRisco re cfg sql2).operationType = "DESCONHECIDO") := by
  have hstrip := pyStrip_ne_of_split sql w ws hsplit
  constructor
  · unfold analisarRisco
    dsimp only
    rw [if_neg hstrip, hsplit]
    simp only [List.headD_cons]
  · intro sql2 h2
    simp [analisarRisco, h2]

/-- C4 witness: DROP reports "DDL", INSERT reports "DML". -/
theorem C4_witness :
    (analisarRisco reSearchLiteral cfgPadrao "DROP TABLE x").operationType = "DDL" ∧
    (analisarRisco reSearchLiteral cfgPadrao "INSERT INTO t VALUES(1)").operationType
      = "DML" := by
  have h1 := C4_operation_type_ddl_or_dml reSearchLiteral cfgPadrao
    "DROP TABLE x" "DROP" ["TABLE", "x"] (by decide)
  have h2 := C4_operation_type_ddl_or_dml reSearchLiteral cfgPadrao
    "INSERT INTO t VALUES(1)" "INSERT" ["INTO", "t", "VALUES(1)"] (by decide)
  refine ⟨?_, ?_⟩
  · rw [h1.1]; decide
  · rw [h2.1]; decide

/-- C7 counterexample: the claim says the loader never produces an empty
allowed set; an input with only unrecognized names produces exactly that, in
DESENVOLVIMENTO and even in PRODUCAO when an explicit (garbage) override is
supplied. -/
theorem C7_counterexample :
    parsearNiveisRisco "FOO" = [] ∧
    (SQLOperationType.init ⟨some "producao", some "FOO", none⟩).allowedRiskLevels = [] ∧
    (SQLOperationType.init ⟨none, some "FOO,BAR", none⟩).allowedRiskLevels = [] := by
  decide

/-- C7, amended: unrecognized names are dropped and the constructed set
contains exactly the levels whose names appear among the uppercased, trimmed
comma entries — so it is empty precisely when no entry is recognized; the
default input "BAIXO,MÉDIO" yields {BAIXO, MÉDIO}. -/
theorem C7_parsed_levels_characterization :
    (∀ (s : String) (l : SQLRiskLevel),
      l ∈ parsearNiveisRisco s ↔
        ∃ e ∈ pySplitComma (pyUpper s), riskLevelFromName (pyStrip e) = some l) ∧
    parsearNiveisRisco "BAIXO,MÉDIO" = [.Baixo, .Medio] := by
  refine ⟨?_, by decide⟩
  intro s l
  simp [parsearNiveisRisco, List.mem_filterMap]

/-- C8 counterexample: the claim says blocked patterns are validated to
compile at load time; the loader keeps the fragment "[" — which Python `re`
refuses to compile — verbatim and never fails. -/
theorem C8_counterexample :
    parsearPadroesBloqueados "[" = ["["] ∧
    (SQLOperationType.init ⟨none, none, some "["⟩).blockedPatterns = ["["] := by
  decide

/-- C8, amended: the loader performs no regex validation: a string belongs to
the parsed pattern list exactly when it is the non-empty strip of some comma
entry of the input, regardless of whether it is a valid regex; invalid
fragments are therefore only exercised at match time inside the
dangerous-pattern scan. -/
theorem C8_loader_keeps_fragments_unvalidated :
    (∀ (s p : String),
      p ∈ parsearPadroesBloqueados s ↔
        ((∃ q ∈ pySplitComma s, pyStrip q = p) ∧ p ≠ "")) ∧
    parsearPadroesBloqueados "[,x(, " = ["[", "x("] := by
  refine ⟨?_, by decide⟩
  intro s p
  simp [parsearPadroesBloqueados, List.mem_filter, List.mem_map]

/-- C9 counterexample: with the blocked pattern "WHERE" configured, adding a
WHERE clause to an UPDATE raises its computed risk from ALTO to CRÍTICO
(the added clause makes the statement match the pattern), so adding WHERE is
not monotone over every configuration. -/
theorem C9_counterexample :
    (analisarRisco reSearchLiteral cfgBloqueiaWhere "UPDATE t SET x=1").riskLevel
      = .Alto ∧
    (analisarRisco reSearchLiteral cfgBloqueiaWhere
      "UPDATE t SET x=1 WHERE id=1").riskLevel = .Critico ∧
    (analisarRisco reSearchLiteral cfgBloqueiaWhere "UPDATE t SET x=1").riskLevel.value
      < (analisarRisco reSearchLiteral cfgBloqueiaWhere
          "UPDATE t SET x=1 WHERE id=1").riskLevel.value := by
  decide

/-- C9, amended: at a fixed danger flag the WHERE guard of the risk cascade
is monotone: for UPDATE and DELETE, a statement containing "WHERE" (in its
uppercased text) never scores higher than one without it, over every
configuration; and in DESENVOLVIMENTO with the danger flag false the claimed
values hold (UPDATE: ALTO without WHERE, MÉDIO with; DELETE: CRÍTICO without,
MÉDIO with). Adding a WHERE clause can raise the overall risk only by flipping
the danger flag (a blocked pattern matching the enlarged text). -/
theorem C9_where_monotone_at_fixed_danger
    (cfg : SQLOperationType) (s1 s2 op : String) (d : Bool)
    (hop : op = "UPDATE" ∨ op = "DELETE")
    (h1 : strContains (pyUpper s1) "WHERE" = false)
    (h2 : strContains (pyUpper s2) "WHERE" = true) :
    (calcularNivelRisco cfg s2 op d).value ≤ (calcularNivelRisco cfg s1 op d).value ∧
    (d = false → cfg.envType = .DESENVOLVIMENTO →
      calcularNivelRisco cfg s2 op d = .Medio ∧
      calcularNivelRisco cfg s1 op d =
        (if op = "UPDATE" then .Alto else .Critico)) := by
  have hmU : metadataOperations.contains "UPDATE" = false := by decide
  have hdU : ddlOperations.contains "UPDATE" = false := by decide
  have hmD : metadataOperations.contains "DELETE" = false := by decide
  have hdD : ddlOperations.contains "DELETE" = false := by decide
  rcases hop with h | h <;> subst h <;> cases d <;>
    rcases henv : cfg.envType with _ | _ <;>
      simp [calcularNivelRisco, henv, h1, h2, SQLRiskLevel.value, hmU, hdU, hmD, hdD] <;>
    decide

/-- C9 witness at concrete UPDATE statements in the default configuration. -/
theorem C9_witness :
    (calcularNivelRisco cfgPadrao "UPDATE t SET x=1 WHERE id=1" "UPDATE" false).value
      ≤ (calcularNivelRisco cfgPadrao "UPDATE t SET x=1" "UPDATE" false).value ∧
    calcularNivelRisco cfgPadrao "UPDATE t SET x=1 WHERE id=1" "UPDATE" false
      = .Medio ∧
    calcularNivelRisco cfgPadrao "UPDATE t SET x=1" "UPDATE" false = .Alto := by
  have h := C9_where_monotone_at_fixed_danger cfgPadrao "UPDATE t SET x=1"
    "UPDATE t SET x=1 WHERE id=1" "UPDATE" false (Or.inl rfl) (by decide) (by decide)
  have h2 := h.2 rfl (by decide)
  exact ⟨h.1, h2.1, by rw [h2.2]; decide⟩

/-- Tokens that are never table keywords produce no extracted tables. -/
theorem coletarTabelas_nil (ws : List String)
    (h : (ws.all fun w => !tableKeywords.contains w) = true) :
    coletarTabelas ws = [] := by
  induction ws with
  | nil => rfl
  | cons a tail ih =>
    cases tail with
    | nil => rfl
    | cons b rest =>
      rw [List.all_cons, Bool.and_eq_true] at h
      have ha : tableKeywords.contains a = false := by
        have hne := h.1
        simp only [Bool.not_eq_true'] at hne
        exact hne
      unfold coletarTabelas
      rw [if_neg (by simpa using ha)]
      exact ih h.2

/-- C10: table detection compares the raw (non-uppercased) token against the
uppercase keywords FROM/JOIN/UPDATE/INTO/TABLE and excludes the follower only
when it exactly equals SELECT, WHERE or SET: lowercase keywords extract
nothing, the keywords-uppercased form extracts the table, the fully
uppercased statement extracts the uppercased table name, a lowercase
follower "where" is not excluded while uppercase "WHERE" is, and any
statement with no token in the keyword set yields the empty table list. -/
theorem C10_table_detection_case_sensitive :
    detectarTabelas "select * from users" = [] ∧
    detectarTabelas "SELECT * FROM users" = ["users"] ∧
    detectarTabelas (pyUpper "select * from users") = ["USERS"] ∧
    detectarTabelas "SELECT * FROM where" = ["where"] ∧
    detectarTabelas "SELECT * FROM WHERE" = [] ∧
    (∀ sql : String,
      ((pySplit sql).all fun w => !tableKeywords.contains w) = true →
        detectarTabelas sql = []) := by
  refine ⟨by decide, by decide, by decide, by decide, by decide, ?_⟩
  intro sql h
  unfold detectarTabelas
  rw [coletarTabelas_nil (pySplit sql) h]
  rfl

/-- C10 witness: a statement with no table keyword yields no tables. -/
theorem C10_witness : detectarTabelas "hello world" = [] :=
  C10_table_detection_case_sensitive.2.2.2.2.2 "hello world" (by decide)
